import Mathlib

/-!
Verification of the safe PAM extension layer (`src/libpam.rs`, `src/severity.rs`).

The foreign host library (`libpam`) is modelled as an explicit oracle: each
operation takes the host's response to the foreign call it would make as an
argument, and returns the operation's outcome together with the trace of
foreign/callback calls it performed, in order.  Rust strings are byte lists;
`CString::new` failure is an embedded zero byte.
-/

namespace PamSm

/-- A Rust `&str` / `&CStr` payload, modelled as its byte sequence. -/
abbrev RStr := List Nat

/-- The embedded-terminator check behind `CString::new`: true when the byte
string contains a zero byte. -/
def hasNul (s : RStr) : Bool := s.contains 0

/-- Embeds `CString::new`: `none` exactly when the input holds an embedded null byte
(the `NulError` case), otherwise the same bytes. -/
def cstringNew (s : RStr) : Option RStr := if hasNul s then none else some s

/-- Modelled from the spec: the status-code enumeration of the `pam` module
(not under `src/`): "one success value, N host-defined failure values".
Represented by its raw `c_int` code; `SUCCESS` is 0 and `SERVICE_ERR` is the
generic service-error failure code (3 in Linux-PAM). -/
structure PamError where
  code : Int
deriving DecidableEq

def PamError.SUCCESS : PamError := ⟨0⟩

def PamError.SERVICE_ERR : PamError := ⟨3⟩

def PamError.CONV_ERR : PamError := ⟨19⟩

/-- Embeds `PamError::new`: wrap a raw host status code. -/
def PamError.new (n : Int) : PamError := ⟨n⟩

/-- Rust `Result<T, PamError>` (`PamResult<T>` in `libpam.rs`). -/
inductive PamResult (α : Type) where
  | ok (v : α)
  | error (e : PamError)
deriving DecidableEq

/-- Embeds `PamError::to_result` (src/libpam.rs lines 15-21): success turns into
`Ok(ok)`, any other status is returned verbatim as `Err(self)`. -/
def PamError.to_result {T : Type} (self : PamError) (ok : T) : PamResult T :=
  if self = PamError.SUCCESS then PamResult.ok ok else PamResult.error self

/-- Modelled from the spec: the item-kind enumeration of the `pam_types`
module (not under `src/`), with the Linux-PAM `c_int` values used below. -/
inductive PamItemType where
  | SERVICE
  | USER
  | TTY
  | RHOST
  | CONV
  | AUTHTOK
  | OLDAUTHTOK
  | RUSER
  | USER_PROMPT
  | FAIL_DELAY
  | XAUTHDATA
deriving DecidableEq

/-- The `as c_int` cast applied to an item kind at each foreign call site. -/
def PamItemType.toInt : PamItemType → Int
  | .SERVICE => 1
  | .USER => 2
  | .TTY => 3
  | .RHOST => 4
  | .CONV => 5
  | .AUTHTOK => 6
  | .OLDAUTHTOK => 7
  | .RUSER => 8
  | .USER_PROMPT => 9
  | .FAIL_DELAY => 10
  | .XAUTHDATA => 11

/-- Modelled from the spec: the conversation message style enumeration of the
`pam_types` module (not under `src/`), passed to the callback unchanged. -/
inductive PamMsgStyle where
  | PAM_PROMPT_ECHO_OFF
  | PAM_PROMPT_ECHO_ON
  | PAM_ERROR_MSG
  | PAM_TEXT_INFO
deriving DecidableEq

/-- Modelled from the spec: one outgoing conversation message record
(`PamMessage` in `pam_types`, not under `src/`): a style and a prompt text. -/
structure PamMessage where
  msg_style : PamMsgStyle
  msg : RStr
deriving DecidableEq

/-- Modelled from the spec: one incoming conversation response record
(`PamResponse` in `pam_types`, not under `src/`): the response string is a
nullable pointer, so `none` models a null `resp` field. -/
structure PamResponse where
  resp : Option RStr
deriving DecidableEq

/-- Modelled from the spec: the conversation descriptor (`PamConv` in
`pam_types`, not under `src/`): a nullable callback function pointer plus an
opaque application-data pointer.  The callback is modelled as a function from
(message count, the single message record, appdata) to the raw status it
returns together with the response record it wrote through `resp_ptr`
(`none` when it left `resp_ptr` null). -/
structure PamConv where
  cb : Option (Nat → PamMessage → Nat → PamError × Option PamResponse)
  appdata_ptr : Nat

/-- One observed call across the foreign boundary, or one invocation of the
registered conversation callback. -/
inductive CallEv where
  | pam_get_item (item_type : Int)
  | pam_get_user (prompt : Option RStr)
  | pam_get_authtok (item : Int) (prompt : Option RStr)
  | pam_set_item (item_type : Int)
  | pam_getenv (nm : RStr)
  | pam_putenv (name_value : RStr)
  | pam_syslog (priority : Int) (fmt : RStr) (arg : RStr)
  | conv_cb (count : Nat) (msg : PamMessage)
deriving DecidableEq

/-- Whether an observed call is a call into the host library (as opposed to
an invocation of the registered conversation callback). -/
def CallEv.isForeign : CallEv → Bool
  | .conv_cb _ _ => false
  | _ => true

/-- Whether an observed call is an invocation of the conversation callback. -/
def CallEv.isCb : CallEv → Bool
  | .conv_cb _ _ => true
  | _ => false

/-- How one operation of the layer ends: a returned value, a Rust `panic!`,
or undefined behaviour (a null-pointer dereference in an `unsafe` block). -/
inductive Outcome (α : Type) where
  | returns (v : α)
  | panics (msg : String)
  | undef
deriving DecidableEq

/-- The result of running one operation against the host oracle: its outcome
plus the ordered trace of foreign/callback calls it made. -/
abbrev OpRun (α : Type) := Outcome α × List CallEv

/-- Embeds `Pam::get_cstr_item` (src/libpam.rs lines 32-47).  The host oracle
argument is the pair (status returned by `pam_get_item`, contents of the
out-pointer after the call, `none` for null — it starts out null). -/
def get_cstr_item (item_type : PamItemType) (host : PamError × Option RStr) :
    OpRun (PamResult (Option RStr)) :=
  match item_type with
  | .CONV | .FAIL_DELAY | .XAUTHDATA =>
    (Outcome.panics "Error, get_cstr_item can only be used with pam item returning c-strings",
     [])
  | _ =>
    let r := host.1
    match host.2 with
    | none => (Outcome.returns (r.to_result none), [CallEv.pam_get_item item_type.toInt])
    | some s =>
      (Outcome.returns (r.to_result (some s)), [CallEv.pam_get_item item_type.toInt])

/-- Embeds `PamLibExt::get_user` (src/libpam.rs lines 103-122).  The host oracle is
the pair (status from `pam_get_user`, contents of `raw_user` after the call,
`none` for null). -/
def get_user (prompt : Option RStr) (host : PamError × Option RStr) :
    OpRun (PamResult (Option RStr)) :=
  let go : Option RStr → OpRun (PamResult (Option RStr)) := fun cprompt =>
    let r := host.1
    match host.2 with
    | none => (Outcome.returns (r.to_result none), [CallEv.pam_get_user cprompt])
    | some u => (Outcome.returns (r.to_result (some u)), [CallEv.pam_get_user cprompt])
  match prompt with
  | none => go none
  | some p =>
    match cstringNew p with
    | none => (Outcome.returns (PamResult.error PamError.SERVICE_ERR), [])
    | some cp => go (some cp)

/-- Embeds `PamLibExt::get_cached_user` (src/libpam.rs lines 124-126). -/
def get_cached_user (host : PamError × Option RStr) : OpRun (PamResult (Option RStr)) :=
  get_cstr_item PamItemType.USER host

/-- Embeds `PamLibExt::get_cached_authtok` (src/libpam.rs lines 128-130). -/
def get_cached_authtok (host : PamError × Option RStr) : OpRun (PamResult (Option RStr)) :=
  get_cstr_item PamItemType.AUTHTOK host

/-- Embeds `PamLibExt::get_cached_oldauthtok` (src/libpam.rs lines 132-134). -/
def get_cached_oldauthtok (host : PamError × Option RStr) : OpRun (PamResult (Option RStr)) :=
  get_cstr_item PamItemType.OLDAUTHTOK host

/-- Embeds `PamLibExt::get_authtok` (src/libpam.rs lines 136-156).  The host oracle
is the pair (status from `pam_get_authtok`, contents of `raw_at` after the
call, `none` for null). -/
def get_authtok (prompt : Option RStr) (host : PamError × Option RStr) :
    OpRun (PamResult (Option RStr)) :=
  let go : Option RStr → OpRun (PamResult (Option RStr)) := fun cprompt =>
    let r := host.1
    match host.2 with
    | none =>
      (Outcome.returns (r.to_result none),
       [CallEv.pam_get_authtok PamItemType.AUTHTOK.toInt cprompt])
    | some at_ =>
      (Outcome.returns (r.to_result (some at_)),
       [CallEv.pam_get_authtok PamItemType.AUTHTOK.toInt cprompt])
  match prompt with
  | none => go none
  | some p =>
    match cstringNew p with
    | none => (Outcome.returns (PamResult.error PamError.SERVICE_ERR), [])
    | some cp => go (some cp)

/-- Embeds `PamLibExt::get_rhost` (src/libpam.rs lines 168-170). -/
def get_rhost (host : PamError × Option RStr) : OpRun (PamResult (Option RStr)) :=
  get_cstr_item PamItemType.RHOST host

/-- Embeds `PamLibExt::get_ruser` (src/libpam.rs lines 172-174). -/
def get_ruser (host : PamError × Option RStr) : OpRun (PamResult (Option RStr)) :=
  get_cstr_item PamItemType.RUSER host

/-- Embeds `PamLibExt::conv` (src/libpam.rs lines 176-216).  The host oracle is the
pair (status from `pam_get_item` on the CONV item, the conversation
descriptor the out-pointer holds afterwards, `none` for null). -/
def conv (prompt : Option RStr) (style : PamMsgStyle)
    (host : PamError × Option PamConv) : OpRun (PamResult (Option RStr)) :=
  let r := host.1
  let tr := [CallEv.pam_get_item PamItemType.CONV.toInt]
  if r ≠ PamError.SUCCESS then
    (Outcome.returns (PamResult.error r), tr)
  else
    match host.2 with
    | none => (Outcome.returns (PamResult.ok none), tr)
    | some c =>
      match cstringNew ((prompt.getD [])) with
      | none => (Outcome.returns (PamResult.error PamError.SERVICE_ERR), tr)
      | some msg_cstr =>
        let msg : PamMessage := { msg_style := style, msg := msg_cstr }
        match c.cb with
        | none => (Outcome.returns (PamResult.ok none), tr)
        | some cb =>
          let res := cb 1 msg c.appdata_ptr
          let tr := tr ++ [CallEv.conv_cb 1 msg]
          if res.1 = PamError.SUCCESS then
            match res.2 with
            | none => (Outcome.undef, tr)
            | some resp => (Outcome.returns (PamResult.ok resp.resp), tr)
          else (Outcome.returns (PamResult.error res.1), tr)

/-- Embeds `PamLibExt::getenv` (src/libpam.rs lines 218-227).  The host oracle is
the pointer `pam_getenv` returns (`none` for null).  Note `pam_getenv`
returns no status code at all. -/
def getenv (nm : RStr) (host : Option RStr) : OpRun (PamResult (Option RStr)) :=
  match cstringNew nm with
  | none => (Outcome.returns (PamResult.error PamError.SERVICE_ERR), [])
  | some cname =>
    match host with
    | none => (Outcome.returns (PamResult.ok none), [CallEv.pam_getenv cname])
    | some v => (Outcome.returns (PamResult.ok (some v)), [CallEv.pam_getenv cname])

/-- Embeds `PamLibExt::putenv` (src/libpam.rs lines 229-232).  The host oracle is
the status `pam_putenv` returns. -/
def putenv (name_value : RStr) (host : PamError) : OpRun (PamResult Unit) :=
  match cstringNew name_value with
  | none => (Outcome.returns (PamResult.error PamError.SERVICE_ERR), [])
  | some cenv => (Outcome.returns (host.to_result ()), [CallEv.pam_putenv cenv])

/-- The host's (POSIX `libc`) syslog priority constants used by
`Severity::to_int`. -/
def LOG_CRIT : Int := 2

def LOG_ERR : Int := 3

def LOG_INFO : Int := 6

def LOG_DEBUG : Int := 7

/-- The four-variant log severity enumeration (src/severity.rs lines 1-6). -/
inductive Severity where
  | Critical
  | Error
  | Info
  | Debug
deriving DecidableEq

/-- Embeds `Severity::to_int` (src/severity.rs lines 9-16). -/
def Severity.to_int : Severity → Int
  | .Critical => LOG_CRIT
  | .Error => LOG_ERR
  | .Info => LOG_INFO
  | .Debug => LOG_DEBUG

/-- The bytes of the two-character literal `"%s"`: `%` is 37, `s` is 115. -/
def fmtPercentS : RStr := [37, 115]

/-- Embeds `PamLibExt::syslog` (src/libpam.rs lines 234-246).  `pam_syslog` returns
no status; after the call the operation always returns `Ok(())`. -/
def syslog (priority : Severity) (message : RStr) : OpRun (PamResult Unit) :=
  match cstringNew fmtPercentS with
  | none => (Outcome.returns (PamResult.error PamError.SERVICE_ERR), [])
  | some f =>
    match cstringNew message with
    | none => (Outcome.returns (PamResult.error PamError.SERVICE_ERR), [])
    | some m =>
      (Outcome.returns (PamResult.ok ()), [CallEv.pam_syslog priority.to_int f m])

/-- Claim C1: every item-reading operation (`get_cached_user`,
`get_cached_authtok`, `get_cached_oldauthtok`, `get_rhost`, `get_ruser`,
`get_user`, `get_authtok`) returns a non-success host status verbatim as an
error, whatever the out-pointer holds. -/
theorem C1_item_read_error_passthrough (r : PamError) (ptr : Option RStr)
    (prompt : Option RStr) (hr : r ≠ PamError.SUCCESS)
    (hp : hasNul (prompt.getD []) = false) :
    (get_cached_user (r, ptr)).1 = Outcome.returns (PamResult.error r) ∧
    (get_cached_authtok (r, ptr)).1 = Outcome.returns (PamResult.error r) ∧
    (get_cached_oldauthtok (r, ptr)).1 = Outcome.returns (PamResult.error r) ∧
    (get_rhost (r, ptr)).1 = Outcome.returns (PamResult.error r) ∧
    (get_ruser (r, ptr)).1 = Outcome.returns (PamResult.error r) ∧
    (get_user prompt (r, ptr)).1 = Outcome.returns (PamResult.error r) ∧
    (get_authtok prompt (r, ptr)).1 = Outcome.returns (PamResult.error r) := by
  unfold get_cached_user get_cached_authtok get_cached_oldauthtok get_rhost get_ruser
    get_user get_authtok get_cstr_item cstringNew PamError.to_result
  cases prompt <;> cases ptr <;> simp_all

/-- Witness for C1 at a concrete non-success status, a non-null pointer and a
concrete prompt. -/
theorem C1_witness :
    (PamError.CONV_ERR ≠ PamError.SUCCESS ∧ hasNul ((some [104, 105]).getD []) = false) ∧
    (get_cached_user (PamError.CONV_ERR, some [97])).1 =
      Outcome.returns (PamResult.error PamError.CONV_ERR) ∧
    (get_cached_authtok (PamError.CONV_ERR, some [97])).1 =
      Outcome.returns (PamResult.error PamError.CONV_ERR) ∧
    (get_cached_oldauthtok (PamError.CONV_ERR, some [97])).1 =
      Outcome.returns (PamResult.error PamError.CONV_ERR) ∧
    (get_rhost (PamError.CONV_ERR, some [97])).1 =
      Outcome.returns (PamResult.error PamError.CONV_ERR) ∧
    (get_ruser (PamError.CONV_ERR, some [97])).1 =
      Outcome.returns (PamResult.error PamError.CONV_ERR) ∧
    (get_user (some [104, 105]) (PamError.CONV_ERR, some [97])).1 =
      Outcome.returns (PamResult.error PamError.CONV_ERR) ∧
    (get_authtok (some [104, 105]) (PamError.CONV_ERR, some [97])).1 =
      Outcome.returns (PamResult.error PamError.CONV_ERR) :=
  ⟨⟨by decide, by decide⟩,
   C1_item_read_error_passthrough PamError.CONV_ERR (some [97]) (some [104, 105])
     (by decide) (by decide)⟩

/-- Claim C2: every item-reading operation maps a success status together
with a null out-pointer to `Ok(None)`, never to an error. -/
theorem C2_success_null_gives_none (prompt : Option RStr)
    (hp : hasNul (prompt.getD []) = false) :
    (get_cached_user (PamError.SUCCESS, none)).1 = Outcome.returns (PamResult.ok none) ∧
    (get_cached_authtok (PamError.SUCCESS, none)).1 = Outcome.returns (PamResult.ok none) ∧
    (get_cached_oldauthtok (PamError.SUCCESS, none)).1 =
      Outcome.returns (PamResult.ok none) ∧
    (get_rhost (PamError.SUCCESS, none)).1 = Outcome.returns (PamResult.ok none) ∧
    (get_ruser (PamError.SUCCESS, none)).1 = Outcome.returns (PamResult.ok none) ∧
    (get_user prompt (PamError.SUCCESS, none)).1 = Outcome.returns (PamResult.ok none) ∧
    (get_authtok prompt (PamError.SUCCESS, none)).1 =
      Outcome.returns (PamResult.ok none) := by
  unfold get_cached_user get_cached_authtok get_cached_oldauthtok get_rhost get_ruser
    get_user get_authtok get_cstr_item cstringNew PamError.to_result
  cases prompt <;> simp_all

/-- Witness for C2 at a concrete prompt. -/
theorem C2_witness :
    hasNul ((some [104, 105]).getD []) = false ∧
    (get_cached_user (PamError.SUCCESS, none)).1 = Outcome.returns (PamResult.ok none) ∧
    (get_cached_authtok (PamError.SUCCESS, none)).1 = Outcome.returns (PamResult.ok none) ∧
    (get_cached_oldauthtok (PamError.SUCCESS, none)).1 =
      Outcome.returns (PamResult.ok none) ∧
    (get_rhost (PamError.SUCCESS, none)).1 = Outcome.returns (PamResult.ok none) ∧
    (get_ruser (PamError.SUCCESS, none)).1 = Outcome.returns (PamResult.ok none) ∧
    (get_user (some [104, 105]) (PamError.SUCCESS, none)).1 =
      Outcome.returns (PamResult.ok none) ∧
    (get_authtok (some [104, 105]) (PamError.SUCCESS, none)).1 =
      Outcome.returns (PamResult.ok none) :=
  ⟨by decide, C2_success_null_gives_none (some [104, 105]) (by decide)⟩

/-- Claim C3 counterexample: `conv` with a nul-containing prompt against a
host with no registered conversation item returns `Ok(None)` — it does not
fail with `SERVICE_ERR` — and it has already made one foreign call
(`pam_get_item` on the CONV item), so the claimed "SERVICE_ERR before any
foreign call" fails for `conv`. -/
theorem C3_counterexample :
    ¬ ((conv (some [0]) PamMsgStyle.PAM_TEXT_INFO (PamError.SUCCESS, none)).1 =
         Outcome.returns (PamResult.error PamError.SERVICE_ERR) ∧
       ((conv (some [0]) PamMsgStyle.PAM_TEXT_INFO (PamError.SUCCESS, none)).2.countP
          CallEv.isForeign) = 0) := by
  decide

/-- Claim C3 as amended: for `get_user`, `get_authtok`, `getenv`, `putenv`
and `syslog`, an embedded null byte yields `SERVICE_ERR` with zero foreign
calls.  For `conv`, the conversation-item read is made first; when a
conversation descriptor is present, a nul-containing prompt yields
`SERVICE_ERR` after exactly that one foreign call and before the callback is
invoked. -/
theorem C3_amended_nul_rejected (p : RStr) (style : PamMsgStyle)
    (hostU hostA : PamError × Option RStr) (hostE : Option RStr) (hostP : PamError)
    (sev : Severity) (c : PamConv) (hp : hasNul p = true) :
    get_user (some p) hostU = (Outcome.returns (PamResult.error PamError.SERVICE_ERR), []) ∧
    get_authtok (some p) hostA =
      (Outcome.returns (PamResult.error PamError.SERVICE_ERR), []) ∧
    getenv p hostE = (Outcome.returns (PamResult.error PamError.SERVICE_ERR), []) ∧
    putenv p hostP = (Outcome.returns (PamResult.error PamError.SERVICE_ERR), []) ∧
    syslog sev p = (Outcome.returns (PamResult.error PamError.SERVICE_ERR), []) ∧
    conv (some p) style (PamError.SUCCESS, some c) =
      (Outcome.returns (PamResult.error PamError.SERVICE_ERR),
       [CallEv.pam_get_item PamItemType.CONV.toInt]) := by
  unfold get_user get_authtok getenv putenv syslog conv cstringNew
  simp_all
  cases hf : hasNul fmtPercentS <;> simp [hf]

/-- Witness for the amended C3 at the one-byte nul string. -/
theorem C3_amended_witness :
    hasNul [0] = true ∧
    get_user (some [0]) (PamError.SUCCESS, none) =
      (Outcome.returns (PamResult.error PamError.SERVICE_ERR), []) ∧
    get_authtok (some [0]) (PamError.SUCCESS, none) =
      (Outcome.returns (PamResult.error PamError.SERVICE_ERR), []) ∧
    getenv [0] none = (Outcome.returns (PamResult.error PamError.SERVICE_ERR), []) ∧
    putenv [0] PamError.SUCCESS =
      (Outcome.returns (PamResult.error PamError.SERVICE_ERR), []) ∧
    syslog Severity.Info [0] =
      (Outcome.returns (PamResult.error PamError.SERVICE_ERR), []) ∧
    conv (some [0]) PamMsgStyle.PAM_TEXT_INFO
        (PamError.SUCCESS, some (⟨none, 0⟩ : PamConv)) =
      (Outcome.returns (PamResult.error PamError.SERVICE_ERR),
       [CallEv.pam_get_item PamItemType.CONV.toInt]) :=
  ⟨by decide,
   C3_amended_nul_rejected [0] PamMsgStyle.PAM_TEXT_INFO (PamError.SUCCESS, none)
     (PamError.SUCCESS, none) none PamError.SUCCESS Severity.Info
     (⟨none, 0⟩ : PamConv) (by decide)⟩

/-- Claim C4: `get_cstr_item` on the CONV, FAIL_DELAY or XAUTHDATA item kind
panics with the source's message, returns no `Ok`/`Err` value, and makes no
foreign call, whatever the host would have answered. -/
theorem C4_get_cstr_item_panics_on_nonstring (host : PamError × Option RStr) :
    get_cstr_item PamItemType.CONV host =
      (Outcome.panics
        "Error, get_cstr_item can only be used with pam item returning c-strings", []) ∧
    get_cstr_item PamItemType.FAIL_DELAY host =
      (Outcome.panics
        "Error, get_cstr_item can only be used with pam item returning c-strings", []) ∧
    get_cstr_item PamItemType.XAUTHDATA host =
      (Outcome.panics
        "Error, get_cstr_item can only be used with pam item returning c-strings", []) :=
  ⟨rfl, rfl, rfl⟩

/-- Claim C5: when `conv` reaches the registered callback, a callback that
answers success with a written response record makes `conv` return the
record's response string unchanged (`None` when the record's string is
null); a callback answering any non-success status makes `conv` return
exactly that status as an error. -/
theorem C5_conv_callback_result (prompt : Option RStr) (style : PamMsgStyle)
    (appdata : Nat) (cbf : Nat → PamMessage → Nat → PamError × Option PamResponse)
    (r : PamError) (written : Option PamResponse) (resp : PamResponse)
    (hp : hasNul (prompt.getD []) = false)
    (hcb : cbf 1 ⟨style, prompt.getD []⟩ appdata = (r, written)) :
    (r = PamError.SUCCESS → written = some resp →
      (conv prompt style (PamError.SUCCESS, some ⟨some cbf, appdata⟩)).1 =
        Outcome.returns (PamResult.ok resp.resp)) ∧
    (r ≠ PamError.SUCCESS →
      (conv prompt style (PamError.SUCCESS, some ⟨some cbf, appdata⟩)).1 =
        Outcome.returns (PamResult.error r)) := by
  unfold conv cstringNew
  constructor
  · intro hr hw
    subst hr
    simp_all
  · intro hr
    simp_all

/-- Witness for C5: a callback answering success with the response "hi". -/
theorem C5_witness :
    (hasNul ((none : Option RStr).getD []) = false ∧
     (fun (_ : Nat) (_ : PamMessage) (_ : Nat) =>
        (PamError.SUCCESS, some (⟨some [104, 105]⟩ : PamResponse))) 1
       ⟨PamMsgStyle.PAM_PROMPT_ECHO_ON, (none : Option RStr).getD []⟩ 0 =
       (PamError.SUCCESS, some (⟨some [104, 105]⟩ : PamResponse))) ∧
    (PamError.SUCCESS = PamError.SUCCESS →
      some (⟨some [104, 105]⟩ : PamResponse) = some (⟨some [104, 105]⟩ : PamResponse) →
      (conv none PamMsgStyle.PAM_PROMPT_ECHO_ON
        (PamError.SUCCESS,
         some ⟨some (fun _ _ _ =>
           (PamError.SUCCESS, some (⟨some [104, 105]⟩ : PamResponse))), 0⟩)).1 =
        Outcome.returns (PamResult.ok (some [104, 105]))) ∧
    (PamError.SUCCESS ≠ PamError.SUCCESS →
      (conv none PamMsgStyle.PAM_PROMPT_ECHO_ON
        (PamError.SUCCESS,
         some ⟨some (fun _ _ _ =>
           (PamError.SUCCESS, some (⟨some [104, 105]⟩ : PamResponse))), 0⟩)).1 =
        Outcome.returns (PamResult.error PamError.SUCCESS)) :=
  ⟨⟨by decide, rfl⟩,
   C5_conv_callback_result none PamMsgStyle.PAM_PROMPT_ECHO_ON 0
     (fun _ _ _ => (PamError.SUCCESS, some (⟨some [104, 105]⟩ : PamResponse)))
     PamError.SUCCESS (some (⟨some [104, 105]⟩ : PamResponse))
     (⟨some [104, 105]⟩ : PamResponse) (by decide) rfl⟩

/-- Claim C6: if `conv`'s read of the conversation item succeeds but the
item is absent, `conv` returns `Ok(None)` after the single item-read call,
invoking no callback; if that read fails, `conv` returns that status as an
error, again invoking no callback. -/
theorem C6_conv_item_absent_or_failed (prompt : Option RStr) (style : PamMsgStyle)
    (r : PamError) (item : Option PamConv) :
    (r = PamError.SUCCESS → item = none →
      conv prompt style (r, item) =
        (Outcome.returns (PamResult.ok none),
         [CallEv.pam_get_item PamItemType.CONV.toInt])) ∧
    (r ≠ PamError.SUCCESS →
      conv prompt style (r, item) =
        (Outcome.returns (PamResult.error r),
         [CallEv.pam_get_item PamItemType.CONV.toInt])) := by
  unfold conv
  constructor
  · intro hr hi
    subst hr
    subst hi
    simp
  · intro hr
    simp [hr]

/-- Witness for C6: a failed item read returns the failing status after the
one item-read call. -/
theorem C6_witness :
    PamError.CONV_ERR ≠ PamError.SUCCESS ∧
    conv none PamMsgStyle.PAM_TEXT_INFO (PamError.CONV_ERR, none) =
      (Outcome.returns (PamResult.error PamError.CONV_ERR),
       [CallEv.pam_get_item PamItemType.CONV.toInt]) :=
  ⟨by decide,
   (C6_conv_item_absent_or_failed none PamMsgStyle.PAM_TEXT_INFO
     PamError.CONV_ERR none).2 (by decide)⟩

/-- Claim C7: for any nul-free message, `syslog` passes exactly the
two-byte literal `"%s"` (bytes 37, 115) in the format-string position of the
host logging call and the message as the sole substitution argument; the
message never occupies the format position. -/
theorem C7_syslog_literal_format (sev : Severity) (message : RStr)
    (hm : hasNul message = false) :
    syslog sev message =
      (Outcome.returns (PamResult.ok ()),
       [CallEv.pam_syslog sev.to_int fmtPercentS message]) ∧
    fmtPercentS = [37, 115] := by
  unfold syslog cstringNew
  refine ⟨?_, rfl⟩
  simp [hm, show hasNul fmtPercentS = false from by decide]

/-- Witness for C7 at the message "%s" itself: it is logged as the argument,
not as the format. -/
theorem C7_witness :
    hasNul [37, 115] = false ∧
    (syslog Severity.Error [37, 115] =
      (Outcome.returns (PamResult.ok ()),
       [CallEv.pam_syslog Severity.Error.to_int fmtPercentS [37, 115]]) ∧
     fmtPercentS = [37, 115]) :=
  ⟨by decide, C7_syslog_literal_format Severity.Error [37, 115] (by decide)⟩

/-- Claim C8: `Severity::to_int` is a total pure function on the four
severities and is injective — distinct severities map to distinct host
priority codes. -/
theorem C8_severity_to_int_injective (a b : Severity)
    (h : Severity.to_int a = Severity.to_int b) : a = b := by
  cases a <;> cases b <;> simp_all [Severity.to_int, LOG_CRIT, LOG_ERR, LOG_INFO, LOG_DEBUG]

/-- Witness for C8 at a concrete pair of severities. -/
theorem C8_witness :
    Severity.to_int Severity.Debug = Severity.to_int Severity.Debug ∧
    Severity.Debug = Severity.Debug :=
  ⟨rfl, C8_severity_to_int_injective Severity.Debug Severity.Debug rfl⟩

/-- Claim C9: for a nul-free name, `getenv` mirrors the host pointer exactly
(`Ok(None)` for null, `Ok(Some _)` otherwise) and can never produce a host
status error; the only error `getenv` can produce is `SERVICE_ERR` from an
embedded null byte, raised with no foreign call. -/
theorem C9_getenv_never_status_error (nm bad : RStr) (host : Option RStr)
    (h : hasNul nm = false) (hb : hasNul bad = true) :
    (getenv nm host).1 = Outcome.returns (PamResult.ok host) ∧
    getenv bad host = (Outcome.returns (PamResult.error PamError.SERVICE_ERR), []) := by
  unfold getenv cstringNew
  cases host <;> simp_all

/-- Witness for C9 at concrete names and a present host value. -/
theorem C9_witness :
    (hasNul [70, 79, 79] = false ∧ hasNul [70, 0, 79] = true) ∧
    (getenv [70, 79, 79] (some [98, 97, 114])).1 =
      Outcome.returns (PamResult.ok (some [98, 97, 114])) ∧
    getenv [70, 0, 79] (some [98, 97, 114]) =
      (Outcome.returns (PamResult.error PamError.SERVICE_ERR), []) :=
  ⟨⟨by decide, by decide⟩,
   C9_getenv_never_status_error [70, 79, 79] [70, 0, 79] (some [98, 97, 114])
     (by decide) (by decide)⟩

/-- Claim C10 counterexample: with the conversation descriptor present and
its callback pointer null, a nul-containing prompt makes `conv` return
`Err(SERVICE_ERR)`, not `Ok(None)` — the prompt's nul check runs before the
null-callback check, so the claim does not hold for every invocation. -/
theorem C10_counterexample :
    ¬ ((conv (some [0]) PamMsgStyle.PAM_TEXT_INFO
          (PamError.SUCCESS, some (⟨none, 0⟩ : PamConv))).1 =
        Outcome.returns (PamResult.ok none)) := by
  decide

/-- Claim C10 as amended: when the conversation descriptor is present with a
null callback pointer and the prompt holds no embedded null byte, `conv`
returns `Ok(None)` after only the single item-read foreign call, invoking
nothing — exactly as in the no-descriptor case. -/
theorem C10_amended_null_cb_is_none (prompt : Option RStr) (style : PamMsgStyle)
    (appdata : Nat) (hp : hasNul (prompt.getD []) = false) :
    conv prompt style (PamError.SUCCESS, some (⟨none, appdata⟩ : PamConv)) =
      (Outcome.returns (PamResult.ok none),
       [CallEv.pam_get_item PamItemType.CONV.toInt]) := by
  unfold conv cstringNew
  simp [hp]

/-- Witness for the amended C10 with no prompt. -/
theorem C10_amended_witness :
    hasNul ((none : Option RStr).getD []) = false ∧
    conv none PamMsgStyle.PAM_PROMPT_ECHO_OFF
        (PamError.SUCCESS, some (⟨none, 7⟩ : PamConv)) =
      (Outcome.returns (PamResult.ok none),
       [CallEv.pam_get_item PamItemType.CONV.toInt]) :=
  ⟨by decide,
   C10_amended_null_cb_is_none none PamMsgStyle.PAM_PROMPT_ECHO_OFF 7 (by decide)⟩

end PamSm
